import Mathlib

/-!
Verification of the credential pool and token-lifecycle manager of the
gemini-cli-openai gateway, shallowly embedded from `src/auth.ts`.

Machine numbers (epoch milliseconds, counts) are modelled as `Int`/`Nat`;
JavaScript `Date.now()` is passed in explicitly as a `now : Int` parameter,
and the two network effects (the OAuth refresh fetch and the upstream API
fetch) are passed in as oracles describing what the network would answer.
Thrown JavaScript errors are modelled with `Except String`.
-/

set_option autoImplicit false

namespace GeminiAuth

/-- The constant `TOKEN_BUFFER_TIME` and the cache key `KV_TOKEN_KEY` come
from `src/config.ts`, which is not part of the provided sources; the buffer
is therefore kept as an explicit parameter `BUF` of every operation and the
key is modelled as a fixed string whose exact value is immaterial (it is
only ever compared for equality). -/
def KV_TOKEN_KEY : String := "oauth_token_cache"

/-- `OAuth2Credentials` from `src/types.ts` as used by `src/auth.ts`. -/
structure OAuth2Credentials where
  access_token : String
  refresh_token : String
  scope : String
  token_type : String
  id_token : String
  expiry_date : Int
  deriving DecidableEq

/-- `TokenRefreshResponse` (auth.ts lines 78-81). -/
structure TokenRefreshResponse where
  access_token : String
  expires_in : Int
  deriving DecidableEq

/-- `CachedTokenData` (auth.ts lines 83-87). -/
structure CachedTokenData where
  access_token : String
  expiry_date : Int
  cached_at : Int
  deriving DecidableEq

/-- `CredentialHealth` (auth.ts lines 100-108). -/
structure CredentialHealth where
  credentialIndex : Nat
  successCount : Nat
  failureCount : Nat
  lastUsed : Int
  lastFailure : Option Int
  lastFailureReason : Option String
  isBlocked : Bool
  deriving DecidableEq

/-- The two rotation strategies (auth.ts line 112). -/
inductive RotationStrategy where
  | roundRobin
  | rateLimit
  deriving DecidableEq

/-- `CredentialRotationConfig` (auth.ts lines 110-114).
`maxRetriesPerCredential` is parsed from configuration with default 3;
the configured values of interest are natural numbers. -/
structure CredentialRotationConfig where
  enabled : Bool
  strategy : RotationStrategy
  maxRetriesPerCredential : Nat
  deriving DecidableEq

/-- The mutable fields of class `AuthManager` (auth.ts lines 125-137) that
the modelled operations read or write.  The promise-chain `rotationQueue`
lock is a concurrency artefact with no sequential content and is omitted. -/
structure AuthState where
  accessToken : Option String
  credentials : List OAuth2Credentials
  currentCredentialIndex : Nat
  credentialHealth : List CredentialHealth
  rotationConfig : CredentialRotationConfig
  deriving DecidableEq

/-- The `{index, token}` result of `initializeAuth` (auth.ts lines 116-119),
extended with a ghost field `expiry_date` recording the expiry date that
governs the returned token at the return site (the cached entry's
`expiry_date`, the credential's embedded `expiry_date`, or the freshly
computed `expiryTime`), so that residual-validity properties can be stated. -/
structure AuthResultM where
  index : Nat
  token : String
  expiry_date : Int
  deriving DecidableEq

/-- The key-value store `env.GEMINI_CLI_KV`, as a small association map. -/
abbrev KV := List (String × CachedTokenData)

/-- `KV.get` -/
def kvGet (kv : KV) (k : String) : Option CachedTokenData :=
  (kv.find? (fun p => p.1 == k)).map (fun p => p.2)

/-- `KV.put` (overwrite semantics). -/
def kvPut (kv : KV) (k : String) (v : CachedTokenData) : KV :=
  (k, v) :: kv.filter (fun p => !(p.1 == k))

/-- `KV.delete` -/
def kvDelete (kv : KV) (k : String) : KV :=
  kv.filter (fun p => !(p.1 == k))

/-- `getCredentialSpecificCacheKey` (auth.ts lines 146-151). -/
def getCredentialSpecificCacheKey (s : AuthState) (index : Nat) : String :=
  if s.rotationConfig.enabled = true ∧ 1 < s.credentials.length then
    KV_TOKEN_KEY ++ "_" ++ toString index
  else
    KV_TOKEN_KEY

/-- The fresh health record built by `initializeCredentialHealth`
(auth.ts lines 527-537). -/
def mkCredentialHealth (index : Nat) : CredentialHealth :=
  { credentialIndex := index
    successCount := 0
    failureCount := 0
    lastUsed := 0
    lastFailure := none
    lastFailureReason := none
    isBlocked := false }

/-- The per-record reset performed when all credentials are blocked
(auth.ts lines 633-638): clears the block and failure state, leaves
`successCount` and `lastUsed` alone. -/
def resetHealthRecord (h : CredentialHealth) : CredentialHealth :=
  { h with isBlocked := false
           failureCount := 0
           lastFailure := none
           lastFailureReason := none }

/-- The JavaScript sort comparator of auth.ts lines 623-626:
`a.failureCount - b.failureCount || a.lastUsed - b.lastUsed`, ascending.
`healthBefore a b` holds when the comparator is strictly negative. -/
def healthBefore (a b : CredentialHealth) : Bool :=
  a.failureCount < b.failureCount ∨
    (a.failureCount = b.failureCount ∧ a.lastUsed < b.lastUsed)

/-- Stable insertion used to model `Array.prototype.sort` (which is stable):
`x` is placed before the first element not strictly before it. -/
def insertHealth (x : CredentialHealth) : List CredentialHealth → List CredentialHealth
  | [] => [x]
  | y :: ys => if healthBefore y x then y :: insertHealth x ys else x :: y :: ys

/-- Stable ascending sort by `(failureCount, lastUsed)` (auth.ts lines 621-626). -/
def sortHealth : List CredentialHealth → List CredentialHealth
  | [] => []
  | x :: xs => insertHealth x (sortHealth xs)

/-- `rotateToNextCredential` (auth.ts lines 592-666).  The promise-queue
lock around the mutation is serialization machinery with no effect on the
sequential state transition; the mutation itself and its internal error
throws are modelled.  Round-robin advances the cursor unconditionally;
rate-limit picks the healthiest unblocked credential, and when none exists
resets every record and restarts from index 0 (with the two defensive
throws of lines 642-649). -/
def rotateToNextCredential (s : AuthState) : Except String AuthState :=
  if s.credentials.length ≤ 1 then
    .ok s
  else
    match s.rotationConfig.strategy with
    | RotationStrategy.roundRobin =>
        .ok { s with currentCredentialIndex :=
                (s.currentCredentialIndex + 1) % s.credentials.length }
    | RotationStrategy.rateLimit =>
        match sortHealth (s.credentialHealth.filter (fun h => !h.isBlocked)) with
        | h :: _ => .ok { s with currentCredentialIndex := h.credentialIndex }
        | [] =>
            let newHealth := s.credentialHealth.map resetHealthRecord
            let s1 := { s with credentialHealth := newHealth, currentCredentialIndex := 0 }
            match newHealth[0]? with
            | some h0 =>
                if h0.isBlocked then
                  .error "Credential reset failed - first credential is still blocked after reset"
                else if s1.credentials.length = 0 then
                  .error "Credential reset failed - no credentials available"
                else .ok s1
            | none =>
                if s1.credentials.length = 0 then
                  .error "Credential reset failed - no credentials available"
                else .ok s1

/-- The body of the `for` loop of `getCurrentCredentials`
(auth.ts lines 548-569), with the remaining attempt budget as fuel
(`maxAttempts = credentials.length`).  An out-of-range cursor would make
JavaScript dereference `undefined`, modelled as a thrown `TypeError`. -/
def getCurrentCredentialsLoop (now : Int) : Nat → AuthState → Except String (OAuth2Credentials × AuthState)
  | 0, _ => .error "All credentials are blocked. No available credentials to use."
  | fuel + 1, s =>
    match s.credentials[s.currentCredentialIndex]?,
          s.credentialHealth[s.currentCredentialIndex]? with
    | some currentCred, some currentHealth =>
        let s1 : AuthState :=
          { s with credentialHealth :=
              (s.credentialHealth.set s.currentCredentialIndex
                { currentHealth with lastUsed := now }) }
        if currentHealth.isBlocked then
          match rotateToNextCredential s1 with
          | .ok s2 => getCurrentCredentialsLoop now fuel s2
          | .error e => .error e
        else
          .ok (currentCred, s1)
    | _, _ => .error "TypeError: cannot read properties of undefined"

/-- `getCurrentCredentials` (auth.ts lines 546-587).  The legacy fallback
that parses the raw `GCP_SERVICE_ACCOUNT` environment variable when no
credential pool is loaded (lines 573-581) is outside the pool states the
claims quantify over and is modelled by the final error of lines 584-586. -/
def getCurrentCredentials (s : AuthState) (now : Int) : Except String (OAuth2Credentials × AuthState) :=
  if 0 < s.credentials.length then
    getCurrentCredentialsLoop now s.credentials.length s
  else
    .error "No OAuth2 credentials available. Please set GCP_SERVICE_ACCOUNT, GCP_SERVICE_ACCOUNTS, or GCP_SERVICE_ACCOUNTS_1, GCP_SERVICE_ACCOUNTS_2, etc. environment variables."

/-- The health-record update performed by `handleCredentialFailure` on the
failed credential (auth.ts lines 676-685): increment `failureCount`, stamp
`lastFailure` and `lastFailureReason`, and set `isBlocked` once
`failureCount >= maxRetriesPerCredential` (leaving it unchanged otherwise). -/
def recordFailureUpdate (maxRetries : Nat) (err : String) (now : Int) (h : CredentialHealth) : CredentialHealth :=
  let h1 := { h with failureCount := h.failureCount + 1
                     lastFailure := some now
                     lastFailureReason := some err }
  if maxRetries ≤ h1.failureCount then { h1 with isBlocked := true } else h1

/-- `handleCredentialFailure` (auth.ts lines 671-691).  Returns the state
unchanged when rotation is disabled or at most one credential is
configured; otherwise updates the health record and rotates away when the
failed credential is the current one. -/
def handleCredentialFailure (err : String) (index : Nat) (now : Int) (s : AuthState) : Except String AuthState :=
  if s.rotationConfig.enabled = false ∨ s.credentials.length ≤ 1 then
    .ok s
  else
    match s.credentialHealth[index]? with
    | none => .error "TypeError: cannot read properties of undefined"
    | some h =>
        let s1 := { s with credentialHealth :=
            (s.credentialHealth.set index
              (recordFailureUpdate s.rotationConfig.maxRetriesPerCredential err now h)) }
        if s1.currentCredentialIndex = index then rotateToNextCredential s1 else .ok s1

/-- The health-record update performed by `handleCredentialSuccess`
(auth.ts lines 701-706). -/
def recordSuccessUpdate (h : CredentialHealth) : CredentialHealth :=
  { h with successCount := h.successCount + 1
           failureCount := 0
           lastFailure := none
           lastFailureReason := none
           isBlocked := false }

/-- `handleCredentialSuccess` (auth.ts lines 696-707). -/
def handleCredentialSuccess (index : Nat) (s : AuthState) : Except String AuthState :=
  if s.rotationConfig.enabled = false then
    .ok s
  else
    match s.credentialHealth[index]? with
    | none => .error "TypeError: cannot read properties of undefined"
    | some h =>
        .ok { s with credentialHealth :=
                (s.credentialHealth.set index (recordSuccessUpdate h)) }

/-- The cached-token freshness test of auth.ts lines 180-190 and 203-216:
the entry is used only when `expiry_date - Date.now() > TOKEN_BUFFER_TIME`. -/
def tryCached (kv : KV) (key : String) (now BUF : Int) : Option CachedTokenData :=
  match kvGet kv key with
  | some c => if BUF < c.expiry_date - now then some c else none
  | none => none

/-- `cacheTokenInKV` (auth.ts lines 295-320): writes the token with
`ttlSeconds = floor((expiry - now)/1000) - 300`, skipping the write when the
TTL is not positive.  KV failures are absorbed by the source and do not
occur in the store model. -/
def cacheTokenInKV (kv : KV) (key : String) (accessToken : String) (expiryDate now : Int) : KV :=
  let ttlSeconds := Int.fdiv (expiryDate - now) 1000 - 300
  if 0 < ttlSeconds then
    kvPut kv key { access_token := accessToken, expiry_date := expiryDate, cached_at := now }
  else
    kv

/-- The `try` body of `initializeAuth` (auth.ts lines 161-239), after
`initializeCredentialRotation` has populated `credentials`,
`credentialHealth` and `rotationConfig` in the state.  `refresh` is the
oracle describing what the OAuth refresh endpoint would answer if called
(`.error` models a non-ok refresh response with its body text). -/
def initAuthBody (s : AuthState) (kv : KV) (now : Int)
    (refresh : Except String TokenRefreshResponse) (BUF : Int) :
    Except String (AuthResultM × AuthState × KV) :=
  let index := s.currentCredentialIndex
  match tryCached kv (getCredentialSpecificCacheKey s index) now BUF with
  | some c =>
      .ok ({ index := index, token := c.access_token, expiry_date := c.expiry_date },
           { s with accessToken := some c.access_token }, kv)
  | none =>
    let previousIndex := s.currentCredentialIndex
    match getCurrentCredentials s now with
    | .error e => .error e
    | .ok (currentCreds, s1) =>
      let index1 := s1.currentCredentialIndex
      match (if index1 ≠ previousIndex then
               tryCached kv (getCredentialSpecificCacheKey s1 index1) now BUF
             else none) with
      | some c =>
          .ok ({ index := index1, token := c.access_token, expiry_date := c.expiry_date },
               { s1 with accessToken := some c.access_token }, kv)
      | none =>
        if BUF < currentCreds.expiry_date - now then
          let s2 := { s1 with accessToken := some currentCreds.access_token }
          let kv2 := cacheTokenInKV kv (getCredentialSpecificCacheKey s2 index1)
                       currentCreds.access_token currentCreds.expiry_date now
          .ok ({ index := index1, token := currentCreds.access_token,
                 expiry_date := currentCreds.expiry_date }, s2, kv2)
        else
          match refresh with
          | .error errText => .error ("Token refresh failed: " ++ errText)
          | .ok rd =>
            let expiryTime := now + rd.expires_in * 1000
            let s2 := { s1 with accessToken := some rd.access_token }
            let kv2 := cacheTokenInKV kv (getCredentialSpecificCacheKey s2 index1)
                         rd.access_token expiryTime now
            .ok ({ index := index1, token := rd.access_token,
                   expiry_date := expiryTime }, s2, kv2)

/-- `initializeAuth` (auth.ts lines 157-250): the `try` body wrapped by the
`catch` of lines 240-249, which rethrows every failure as a standardized
authentication error (the catch also nulls the in-memory token; the source
discards the state on a throw, as does the `Except.error` result here). -/
def initAuth (s : AuthState) (kv : KV) (now : Int)
    (refresh : Except String TokenRefreshResponse) (BUF : Int) :
    Except String (AuthResultM × AuthState × KV) :=
  match initAuthBody s kv now refresh BUF with
  | .ok out => .ok out
  | .error e =>
      .error ("Authentication failed: " ++ e ++ ". Please verify your credentials and configuration.")

/-- One upstream HTTP response as the failover policy sees it
(`response.status`, `response.text()` / `response.json()` body). -/
structure UpstreamResponse where
  status : Nat
  body : String
  deriving DecidableEq

/-- The network's answers for one attempt of `callEndpoint`: what the OAuth
refresh endpoint would return if the attempt needs a refresh, and what the
upstream Code Assist endpoint returns for the attempt's request. -/
structure Attempt where
  refresh : Except String TokenRefreshResponse
  response : UpstreamResponse

/-- `callEndpoint` (auth.ts lines 367-405).  The list of `Attempt`s is the
network oracle: each (re)entry of the method consumes one element.  The
source can re-enter itself at most once (guarded by `isRetry`), so at most
two elements are ever consumed; the empty-oracle case is unreachable from a
two-element oracle and is modelled as an error. -/
def callEndpoint (BUF now : Int) : AuthState → KV → Bool → List Attempt → Except String (String × AuthState × KV)
  | _, _, _, [] => .error "no modeled upstream response"
  | s, kv, isRetry, att :: rest =>
    match initAuth s kv now att.refresh BUF with
    | .error e => .error e
    | .ok (res, s1, kv1) =>
      if 200 ≤ att.response.status ∧ att.response.status < 300 then
        match handleCredentialSuccess res.index s1 with
        | .error e => .error e
        | .ok s2 => .ok (att.response.body, s2, kv1)
      else if att.response.status = 401 ∧ isRetry = false then
        let s2 := { s1 with accessToken := none }
        let kv2 := kvDelete kv1 (getCredentialSpecificCacheKey s2 res.index)
        callEndpoint BUF now s2 kv2 true rest
      else if (att.response.status = 429 ∨ att.response.status = 503) ∧
              s1.rotationConfig.enabled = true ∧ isRetry = false then
        match handleCredentialFailure ("HTTP " ++ toString att.response.status ++ " error")
                res.index now s1 with
        | .error e => .error e
        | .ok s2 =>
          let kv2 := kvDelete kv1 (getCredentialSpecificCacheKey s2 res.index)
          callEndpoint BUF now s2 kv2 true rest
      else
        .error ("API call failed with status " ++ toString att.response.status ++ ": " ++ att.response.body)

/-- A JSON field value as `validateOAuth2Credentials` distinguishes them:
absent (`undefined`), present with a non-string type, or a string. -/
inductive JField where
  | absent
  | nonString
  | str (s : String)
  deriving DecidableEq

/-- The `expiry_date` value: absent, not a usable number (a non-number or
`NaN`, which both checks of the source treat identically), or a number. -/
inductive JNum where
  | absent
  | nonNumber
  | num (n : Int)
  deriving DecidableEq

/-- A candidate credential object, field by field, before validation. -/
structure RawCred where
  access_token : JField
  refresh_token : JField
  scope : JField
  token_type : JField
  id_token : JField
  expiry_date : JNum
  deriving DecidableEq

/-- Whether a string field fails the first-stage check of auth.ts line 43
(`value === undefined || typeof value !== "string"`). -/
def jfieldMissing : JField → Bool
  | JField.str _ => false
  | _ => true

/-- Whether `expiry_date` fails the first-stage check of auth.ts line 41. -/
def jnumMissing : JNum → Bool
  | JNum.num _ => false
  | _ => true

/-- The `missingFields` list of auth.ts lines 37-44, in declaration order. -/
def missingNames (c : RawCred) : List String :=
  (([("access_token", jfieldMissing c.access_token),
     ("refresh_token", jfieldMissing c.refresh_token),
     ("scope", jfieldMissing c.scope),
     ("token_type", jfieldMissing c.token_type),
     ("id_token", jfieldMissing c.id_token),
     ("expiry_date", jnumMissing c.expiry_date)].filter (fun p => p.2)).map (fun p => p.1))

/-- JavaScript `String.prototype.trim`: strip leading and trailing
whitespace.  Modelled on the character list because the built-in
`String.trim` does not reduce inside the kernel. -/
def jsTrim (s : String) : String :=
  String.mk (((s.data.dropWhile Char.isWhitespace).reverse.dropWhile Char.isWhitespace).reverse)

/-- One iteration of the per-field loop of auth.ts lines 54-59: throws on
the first field that is not a non-empty string (after `trim`). -/
def checkNonEmptyString (sourceName fieldName : String) (v : JField) : Except String String :=
  match v with
  | JField.str s =>
      if jsTrim s = "" then
        .error (sourceName ++ "." ++ fieldName ++ " must be a non-empty string")
      else .ok s
  | _ => .error (sourceName ++ "." ++ fieldName ++ " must be a non-empty string")

/-- `validateOAuth2Credentials` (auth.ts lines 18-75).  `none` models an
input that is not an object.  Stage one aggregates every missing or
wrong-typed field into a single error; stage two walks the string fields in
order and throws at the first empty one; stage three checks
`expiry_date > 0`. -/
def validateOAuth2Credentials (cred : Option RawCred) (sourceName : String) : Except String OAuth2Credentials :=
  match cred with
  | none => .error (sourceName ++ " must be a JSON object with OAuth2 credentials.")
  | some c =>
    if missingNames c = [] then
      match checkNonEmptyString sourceName "access_token" c.access_token with
      | .error e => .error e
      | .ok a =>
      match checkNonEmptyString sourceName "refresh_token" c.refresh_token with
      | .error e => .error e
      | .ok rt =>
      match checkNonEmptyString sourceName "scope" c.scope with
      | .error e => .error e
      | .ok sc =>
      match checkNonEmptyString sourceName "token_type" c.token_type with
      | .error e => .error e
      | .ok tt =>
      match checkNonEmptyString sourceName "id_token" c.id_token with
      | .error e => .error e
      | .ok idt =>
      match c.expiry_date with
      | JNum.num n =>
          if n ≤ 0 then .error (sourceName ++ ".expiry_date must be a positive number")
          else .ok { access_token := a, refresh_token := rt, scope := sc,
                     token_type := tt, id_token := idt, expiry_date := n }
      | _ => .error (sourceName ++ ".expiry_date must be a positive number")
    else
      .error (sourceName ++ " is missing required fields: " ++
        String.intercalate ", " (missingNames c) ++
        ". OAuth2 credentials must include: access_token, refresh_token, scope, token_type, id_token, expiry_date")

/-- `k` consecutive failures recorded on one health record. -/
def iterFailures (maxRetries : Nat) (err : String) (now : Int) : Nat → CredentialHealth → CredentialHealth
  | 0, h => h
  | k + 1, h => recordFailureUpdate maxRetries err now (iterFailures maxRetries err now k h)

/-- One configured credential variable as `loadCredentials` sees it:
either `JSON.parse` throws, or it yields a JSON value (modelled by
`Option RawCred`, with `none` for a non-object value). -/
inductive CredVar where
  | parseError
  | parsed (c : Option RawCred)

/-- The credential-supplying environment variables read by
`loadCredentials` (auth.ts lines 458-518): the contiguous
`GCP_SERVICE_ACCOUNTS_1, _2, ...` prefix (the `while` loop stops at the
first absent variable), the optional `GCP_SERVICE_ACCOUNTS` variable
(`.error` models a parse failure or a non-array value, which the source
turns into the same caught throw), and the optional legacy
`GCP_SERVICE_ACCOUNT` variable. -/
structure CredEnv where
  individual : List CredVar
  accounts : Option (Except Unit (List (Option RawCred)))
  account : Option CredVar

/-- The `while` loop of auth.ts lines 463-478 over the indexed variables,
starting at index `i` (the source starts at 1): each iteration parses and
validates one variable inside a `try` whose `catch` discards the thrown
error — including the validator's aggregated field list — and rethrows a
generic message naming only the source variable. -/
def loadIndividual : Nat → List CredVar → Except String (List OAuth2Credentials)
  | _, [] => .ok []
  | i, v :: rest =>
    match v with
    | CredVar.parseError =>
        .error ("Invalid GCP_SERVICE_ACCOUNTS_" ++ toString i ++ " format. Must be a JSON object with OAuth2 credentials.")
    | CredVar.parsed c =>
        match validateOAuth2Credentials c ("GCP_SERVICE_ACCOUNTS_" ++ toString i) with
        | .error _ =>
            .error ("Invalid GCP_SERVICE_ACCOUNTS_" ++ toString i ++ " format. Must be a JSON object with OAuth2 credentials.")
        | .ok cred =>
            match loadIndividual (i + 1) rest with
            | .error e => .error e
            | .ok creds => .ok (cred :: creds)

/-- The `parsedCreds.map(validate)` of auth.ts lines 493-495, threading
the 0-based array index into the source name. -/
def validateAll : Nat → List (Option RawCred) → Except String (List OAuth2Credentials)
  | _, [] => .ok []
  | i, c :: rest =>
    match validateOAuth2Credentials c ("GCP_SERVICE_ACCOUNTS[" ++ toString i ++ "]") with
    | .error e => .error e
    | .ok cred =>
        match validateAll (i + 1) rest with
        | .error e => .error e
        | .ok creds => .ok (cred :: creds)

/-- `loadCredentials` (auth.ts lines 458-518): the three supply shapes in
priority order.  Every validation error raised inside a shape's `try` is
caught and replaced by that shape's generic `Invalid ... format` message. -/
def loadCredentials (env : CredEnv) : Except String (List OAuth2Credentials) :=
  match loadIndividual 1 env.individual with
  | .error e => .error e
  | .ok individualCreds =>
    if 0 < individualCreds.length then
      .ok individualCreds
    else
      match env.accounts with
      | some (.error _) =>
          .error "Invalid GCP_SERVICE_ACCOUNTS format. Must be a JSON array of OAuth2 credentials."
      | some (.ok entries) =>
          match validateAll 0 entries with
          | .error _ =>
              .error "Invalid GCP_SERVICE_ACCOUNTS format. Must be a JSON array of OAuth2 credentials."
          | .ok creds => .ok creds
      | none =>
          match env.account with
          | some CredVar.parseError =>
              .error "Invalid GCP_SERVICE_ACCOUNT format. Must be a JSON object with OAuth2 credentials."
          | some (CredVar.parsed c) =>
              match validateOAuth2Credentials c "GCP_SERVICE_ACCOUNT" with
              | .error _ =>
                  .error "Invalid GCP_SERVICE_ACCOUNT format. Must be a JSON object with OAuth2 credentials."
              | .ok cred => .ok [cred]
          | none =>
              .error "No OAuth2 credentials provided. Please set GCP_SERVICE_ACCOUNT, GCP_SERVICE_ACCOUNTS, or GCP_SERVICE_ACCOUNTS_1, GCP_SERVICE_ACCOUNTS_2, etc. environment variables."

/-! ### Concrete fixtures used by counterexamples and witnesses -/

/-- A decidable equality on `Except`, for evaluating concrete runs. -/
instance {α β : Type} [DecidableEq α] [DecidableEq β] : DecidableEq (Except α β) :=
  fun a b =>
    match a, b with
    | .ok x, .ok y => decidable_of_iff (x = y) (by simp)
    | .error x, .error y => decidable_of_iff (x = y) (by simp)
    | .ok _, .error _ => isFalse (by simp)
    | .error _, .ok _ => isFalse (by simp)

/-- First pool credential; its embedded token is long expired. -/
def cred0 : OAuth2Credentials :=
  { access_token := "A0", refresh_token := "R0", scope := "sc", token_type := "Bearer",
    id_token := "ID0", expiry_date := 0 }

/-- Second pool credential; its embedded token is long expired. -/
def cred1 : OAuth2Credentials :=
  { access_token := "A1", refresh_token := "R1", scope := "sc", token_type := "Bearer",
    id_token := "ID1", expiry_date := 0 }

/-- Rotation enabled, round-robin, default retry ceiling of 3. -/
def rrConfig : CredentialRotationConfig :=
  { enabled := true, strategy := RotationStrategy.roundRobin, maxRetriesPerCredential := 3 }

/-- A two-credential pool, rotation enabled, round-robin, fresh health. -/
def sTwo : AuthState :=
  { accessToken := none, credentials := [cred0, cred1], currentCredentialIndex := 0,
    credentialHealth := [mkCredentialHealth 0, mkCredentialHealth 1], rotationConfig := rrConfig }

/-- A one-credential pool with rotation enabled. -/
def sOne : AuthState :=
  { accessToken := none, credentials := [cred0], currentCredentialIndex := 0,
    credentialHealth := [mkCredentialHealth 0], rotationConfig := rrConfig }

/-- A one-credential pool with rotation disabled. -/
def sDisabled : AuthState :=
  { accessToken := none, credentials := [cred0], currentCredentialIndex := 0,
    credentialHealth := [mkCredentialHealth 0],
    rotationConfig := { enabled := false, strategy := RotationStrategy.roundRobin,
                        maxRetriesPerCredential := 3 } }

/-- A health record blocked after three failures. -/
def blockedHealth (i : Nat) : CredentialHealth :=
  { mkCredentialHealth i with isBlocked := true, failureCount := 3,
                              lastFailure := some 5, lastFailureReason := some "HTTP 429 error" }

/-- Two credentials, both blocked, round-robin strategy. -/
def sBlockedRR : AuthState :=
  { sTwo with credentialHealth := [blockedHealth 0, blockedHealth 1] }

/-- Two credentials, both blocked, rate-limit strategy. -/
def sBlockedRL : AuthState :=
  { sBlockedRR with rotationConfig :=
      { enabled := true, strategy := RotationStrategy.rateLimit, maxRetriesPerCredential := 3 } }

/-- The expiry date governing the token returned by a successful
`initializeAuth` run, if any. -/
def authExpiry (r : Except String (AuthResultM × AuthState × KV)) : Option Int :=
  match r with
  | .ok (a, _, _) => some a.expiry_date
  | .error _ => none

/-- The parsed payload of a successful `callEndpoint` run, if any. -/
def callBody (r : Except String (String × AuthState × KV)) : Option String :=
  match r with
  | .ok (b, _, _) => some b
  | .error _ => none

/-- Two consecutive selections: run `getCurrentCredentials` twice and
report the credential index each selection settled on. -/
def selectTwice (s : AuthState) (now1 now2 : Int) : Option (Nat × Nat) :=
  match getCurrentCredentials s now1 with
  | .ok (_, s1) =>
      match getCurrentCredentials s1 now2 with
      | .ok (_, s2) => some (s1.currentCredentialIndex, s2.currentCredentialIndex)
      | .error _ => none
  | .error _ => none

/-- A KV store holding a fresh cached token for credential 0 of `sTwo`. -/
def c2kv : KV :=
  [("oauth_token_cache_0", { access_token := "CT", expiry_date := 999999999, cached_at := 0 })]

/-- First attempt of the C2 scenario: the upstream answers 401. -/
def c2a1 : Attempt :=
  { refresh := .ok { access_token := "TX", expires_in := 3600 },
    response := { status := 401, body := "unauth" } }

/-- Second attempt of the C2 scenario: the retry also answers 401. -/
def c2a2 : Attempt :=
  { refresh := .ok { access_token := "T2", expires_in := 3600 },
    response := { status := 401, body := "unauth2" } }

/-- Result of the C2 scenario's first `initializeAuth`: the cached token hit. -/
def c2r1 : AuthResultM := { index := 0, token := "CT", expiry_date := 999999999 }

/-- State after the C2 scenario's first `initializeAuth`. -/
def c2s1 : AuthState := { sTwo with accessToken := some "CT" }

/-- Result of the C2 scenario's second `initializeAuth` (a fresh refresh). -/
def c2r2 : AuthResultM := { index := 0, token := "T2", expiry_date := 4600000 }

/-- State after the C2 scenario's second `initializeAuth`. -/
def c2s2 : AuthState :=
  { sTwo with accessToken := some "T2",
              credentialHealth := [{ mkCredentialHealth 0 with lastUsed := 1000000 }, mkCredentialHealth 1] }

/-- KV store after the C2 scenario's second `initializeAuth`. -/
def c2kv2 : KV :=
  [("oauth_token_cache_0", { access_token := "T2", expiry_date := 4600000, cached_at := 1000000 })]

/-- First attempt of the C3 counterexample scenario: upstream answers 429. -/
def c3a1 : Attempt :=
  { refresh := .ok { access_token := "T1", expires_in := 3600 },
    response := { status := 429, body := "rate" } }

/-- Second attempt of the C3 counterexample scenario: the retry succeeds. -/
def c3a2 : Attempt :=
  { refresh := .ok { access_token := "T1b", expires_in := 3600 },
    response := { status := 200, body := "OK" } }

/-- First attempt of the C3 witness scenario: upstream answers 429. -/
def c3b1 : Attempt :=
  { refresh := .ok { access_token := "T1", expires_in := 3600 },
    response := { status := 429, body := "rate1" } }

/-- Second attempt of the C3 witness scenario: the retry answers 429 again. -/
def c3b2 : Attempt :=
  { refresh := .ok { access_token := "T1b", expires_in := 3600 },
    response := { status := 429, body := "rate2" } }

/-- Result of the C3 witness scenario's first `initializeAuth`. -/
def c3r1 : AuthResultM := { index := 0, token := "T1", expiry_date := 4600000 }

/-- State after the C3 witness scenario's first `initializeAuth`. -/
def c3s1 : AuthState :=
  { sOne with accessToken := some "T1",
              credentialHealth := [{ mkCredentialHealth 0 with lastUsed := 1000000 }] }

/-- KV store after the C3 witness scenario's first `initializeAuth`. -/
def c3kv1 : KV :=
  [("oauth_token_cache", { access_token := "T1", expiry_date := 4600000, cached_at := 1000000 })]

/-- Result of the C3 witness scenario's second `initializeAuth`. -/
def c3r2 : AuthResultM := { index := 0, token := "T1b", expiry_date := 4600000 }

/-- State after the C3 witness scenario's second `initializeAuth`. -/
def c3s2 : AuthState := { c3s1 with accessToken := some "T1b" }

/-- KV store after the C3 witness scenario's second `initializeAuth`. -/
def c3kv2 : KV :=
  [("oauth_token_cache", { access_token := "T1b", expiry_date := 4600000, cached_at := 1000000 })]

/-- Output of the C1 witness run: a refreshed token with a full hour of
validity. -/
def c1wOut : AuthResultM × AuthState × KV :=
  ({ index := 0, token := "T2", expiry_date := 4600000 },
   { sTwo with accessToken := some "T2",
               credentialHealth := [{ mkCredentialHealth 0 with lastUsed := 1000000 }, mkCredentialHealth 1] },
   [("oauth_token_cache_0", { access_token := "T2", expiry_date := 4600000, cached_at := 1000000 })])

/-- A fully valid raw credential object. -/
def c8good : RawCred :=
  { access_token := JField.str "a", refresh_token := JField.str "r",
    scope := JField.str "s", token_type := JField.str "t",
    id_token := JField.str "i", expiry_date := JNum.num 5 }

/-- The credential `validateOAuth2Credentials` builds from `c8good`. -/
def c8goodOut : OAuth2Credentials :=
  { access_token := "a", refresh_token := "r", scope := "s",
    token_type := "t", id_token := "i", expiry_date := 5 }

/-- A raw credential with two missing fields (`refresh_token` absent,
`expiry_date` not a number). -/
def c8miss : RawCred :=
  { access_token := JField.str "a", refresh_token := JField.absent,
    scope := JField.str "s", token_type := JField.str "t",
    id_token := JField.str "i", expiry_date := JNum.nonNumber }

/-- A raw credential whose `access_token` and `refresh_token` are both
present strings but both empty. -/
def c8bothEmpty : RawCred :=
  { access_token := JField.str "", refresh_token := JField.str "",
    scope := JField.str "s", token_type := JField.str "t",
    id_token := JField.str "i", expiry_date := JNum.num 5 }

/-! ### Helper lemmas -/

theorem kvGet_kvDelete (kv : KV) (k : String) : kvGet (kvDelete kv k) k = none := by
  induction kv with
  | nil => rfl
  | cons p t ih =>
      by_cases hp : p.1 == k
      · simp [kvDelete, kvGet, List.filter, hp] at *
      · rw [Bool.not_eq_true] at hp
        simp [kvDelete, kvGet, List.filter, List.find?, hp] at *

theorem tryCached_fresh {kv : KV} {key : String} {now BUF : Int} {c : CachedTokenData}
    (h : tryCached kv key now BUF = some c) : BUF < c.expiry_date - now := by
  unfold tryCached at h
  split at h
  · split at h
    · cases h; assumption
    · cases h
  · cases h

theorem checkNonEmptyString_ok {src name : String} {v : JField} {x : String}
    (h : checkNonEmptyString src name v = Except.ok x) :
    v = JField.str x ∧ jsTrim x ≠ "" := by
  unfold checkNonEmptyString at h
  split at h
  · split at h
    · cases h
    · cases h; exact ⟨rfl, by assumption⟩
  · cases h

/-! ### C10 -/

/-- C10: if rotation is disabled or at most one credential is configured
(in particular, exactly one), `handleCredentialFailure` returns the state
unchanged — no health record is touched, no credential gets blocked, no
rotation occurs — and when rotation is disabled `handleCredentialSuccess`
likewise leaves the state unchanged. -/
theorem c10_frame_no_rotation (s : AuthState) (err : String) (index : Nat) (now : Int)
    (hguard : s.rotationConfig.enabled = false ∨ s.credentials.length = 1) :
    handleCredentialFailure err index now s = Except.ok s ∧
    (s.rotationConfig.enabled = false → handleCredentialSuccess index s = Except.ok s) := by
  have hguard1 : s.rotationConfig.enabled = false ∨ s.credentials.length ≤ 1 := by
    rcases hguard with h | h
    · exact Or.inl h
    · exact Or.inr (le_of_eq h)
  constructor
  · unfold handleCredentialFailure
    rw [if_pos hguard1]
  · intro hd
    unfold handleCredentialSuccess
    rw [if_pos hd]

/-- Witness for C10 at a concrete one-credential, rotation-disabled state. -/
theorem c10_frame_no_rotation_witness :
    handleCredentialFailure "e" 0 5 sDisabled = Except.ok sDisabled ∧
    (sDisabled.rotationConfig.enabled = false → handleCredentialSuccess 0 sDisabled = Except.ok sDisabled) :=
  c10_frame_no_rotation sDisabled "e" 0 5 (Or.inl (by decide))

/-! ### C1 -/

/-- C1 counterexample: the refreshed-token return path of `initializeAuth`
performs no buffer check.  With `BUFFER = 30000` and a refresh response of
`expires_in = 10` seconds, `initializeAuth` succeeds but the returned
token's residual validity is `10000 ms < BUFFER`, refuting the claim that
every return path guarantees residual validity of at least `BUFFER`. -/
theorem c1_buffer_counterexample :
    authExpiry (initAuth sTwo [] 1000000 (.ok { access_token := "T2", expires_in := 10 }) 30000) =
      some 1010000 ∧
    ((1010000 : Int) - 1000000 < 30000) := by
  constructor
  · decide
  · decide

/-- C1 (amended): whenever `initializeAuth` returns successfully, the
expiry governing the returned token exceeds the buffer on the cached-token
and embedded-credential paths because those paths test
`expiry - now > BUFFER`; the freshly-refreshed path carries no such check
and returns a token whose residual validity is exactly
`expires_in * 1000`, so the claimed bound holds only under the additional
hypothesis that any consulted refresh response satisfies
`expires_in * 1000 > BUFFER`. -/
theorem c1_buffer_amended (s : AuthState) (kv : KV) (now BUF : Int)
    (refresh : Except String TokenRefreshResponse) (out : AuthResultM × AuthState × KV)
    (hre : ∀ rd, refresh = Except.ok rd → BUF < rd.expires_in * 1000)
    (hok : initAuth s kv now refresh BUF = Except.ok out) :
    BUF ≤ out.1.expiry_date - now := by
  have hbody : initAuthBody s kv now refresh BUF = Except.ok out := by
    unfold initAuth at hok
    split at hok
    · rename_i o ho
      rw [ho]
      cases hok
      rfl
    · cases hok
  simp only [initAuthBody] at hbody
  cases hc1 : tryCached kv (getCredentialSpecificCacheKey s s.currentCredentialIndex) now BUF with
  | some c =>
      simp only [hc1] at hbody
      injection hbody with h2
      subst h2
      exact le_of_lt (tryCached_fresh hc1)
  | none =>
      simp only [hc1] at hbody
      cases hg : getCurrentCredentials s now with
      | error e =>
          simp only [hg] at hbody
          exact Except.noConfusion hbody
      | ok pr =>
          obtain ⟨currentCreds, s1⟩ := pr
          simp only [hg] at hbody
          cases hc2 : (if s1.currentCredentialIndex ≠ s.currentCredentialIndex then
              tryCached kv (getCredentialSpecificCacheKey s1 s1.currentCredentialIndex) now BUF
            else none) with
          | some c =>
              simp only [hc2] at hbody
              injection hbody with h2
              subst h2
              have hc2' : tryCached kv (getCredentialSpecificCacheKey s1 s1.currentCredentialIndex) now BUF = some c := by
                by_cases hne : s1.currentCredentialIndex ≠ s.currentCredentialIndex
                · rwa [if_pos hne] at hc2
                · rw [if_neg hne] at hc2
                  cases hc2
              exact le_of_lt (tryCached_fresh hc2')
          | none =>
              simp only [hc2] at hbody
              by_cases hfresh : BUF < currentCreds.expiry_date - now
              · rw [if_pos hfresh] at hbody
                injection hbody with h2
                subst h2
                exact le_of_lt hfresh
              · rw [if_neg hfresh] at hbody
                cases refresh with
                | error t => simp at hbody
                | ok rd =>
                    simp only [] at hbody
                    injection hbody with h2
                    subst h2
                    have h := hre rd rfl
                    simp only []
                    omega

/-- Witness for the amended C1 at a concrete refresh with a full hour of
validity. -/
theorem c1_buffer_amended_witness : (30000 : Int) ≤ c1wOut.1.expiry_date - 1000000 :=
  c1_buffer_amended sTwo [] 1000000 30000 (.ok { access_token := "T2", expires_in := 3600 }) c1wOut
    (by intro rd h; cases h; decide) (by decide)

/-! ### Counterexamples for C3 through C8 -/

/-- C3 counterexample: on a single-credential pool with rotation enabled, a
429 on the first attempt is retried with the very same credential (no
different index can be obtained), and the retry succeeds — whereas the
claim requires the error to surface unless a different index was obtained.
Moreover no `maxAccountRetryAttempts` parameter exists in the code. -/
theorem c3_rotation_counterexample :
    sOne.credentials.length = 1 ∧ sOne.rotationConfig.enabled = true ∧
    callBody (callEndpoint 30000 1000000 sOne [] false [c3a1, c3a2]) = some "OK" := by
  refine ⟨by decide, by decide, by decide⟩

/-- C4 counterexample: with the round-robin strategy (the default) and
every credential blocked, the next selection does not reset anything and
does not return index 0 — it throws after cycling through the pool. -/
theorem c4_reset_counterexample :
    getCurrentCredentials sBlockedRR 1000000 =
      Except.error "All credentials are blocked. No available credentials to use." := by
  decide

/-- C5 counterexample: with rotation enabled but a single-credential pool,
`handleCredentialFailure` returns the state unchanged — `failureCount` is
not incremented and no failure time or reason is stamped, refuting the
claim for every rotation-enabled pool. -/
theorem c5_record_failure_counterexample :
    sOne.rotationConfig.enabled = true ∧
    handleCredentialFailure "e" 0 999 sOne = Except.ok sOne := by
  refine ⟨by decide, by decide⟩

/-- C6 counterexample: with rotation disabled, `handleCredentialSuccess`
returns the state unchanged — `successCount` is not incremented, refuting
the claim as stated for every credential index. -/
theorem c6_record_success_counterexample :
    sDisabled.rotationConfig.enabled = false ∧
    handleCredentialSuccess 0 sDisabled = Except.ok sDisabled := by
  refine ⟨by decide, by decide⟩

/-- C7 counterexample: with two credentials, rotation enabled, round-robin
and every credential available, two consecutive selections both settle on
index 0 — `getCurrentCredentials` does not advance the cursor when the
current credential is unblocked. -/
theorem c7_round_robin_counterexample :
    sTwo.credentialHealth.all (fun h => !h.isBlocked) = true ∧
    1 < sTwo.credentials.length ∧
    selectTwice sTwo 1000000 1000001 = some (0, 0) := by
  refine ⟨by decide, by decide, by decide⟩

/-- C8 counterexample: loading a configuration whose single indexed
credential is missing `refresh_token` and has a non-numeric `expiry_date`
fails with the generic message naming only the source variable — the
`catch` of `loadCredentials` discards the validator's aggregated field
list, so the surfaced loading error aggregates nothing and names no
field, refuting the claim that loading fails with an error listing all
violations across all fields. -/
theorem c8_aggregate_counterexample :
    loadCredentials { individual := [CredVar.parsed (some c8miss)], accounts := none, account := none } =
      Except.error "Invalid GCP_SERVICE_ACCOUNTS_1 format. Must be a JSON object with OAuth2 credentials." := by
  decide

/-! ### C2 -/

/-- C2: when the first upstream attempt of `callEndpoint` returns HTTP 401,
the in-memory token is cleared and the used credential's KV cache entry is
deleted (second conjunct: the entry is gone), and the whole sequence is
retried exactly once; if the retry's upstream attempt also returns 401 the
call surfaces the error — the result is independent of any further oracle
entries (`rest` is universally quantified), so there is never a second
retry, regardless of rotation outcome. -/
theorem c2_retry_401_once (BUF now : Int) (s : AuthState) (kv : KV)
    (a1 a2 : Attempt) (rest : List Attempt)
    (r1 : AuthResultM) (s1 : AuthState) (kv1 : KV)
    (hinit : initAuth s kv now a1.refresh BUF = Except.ok (r1, s1, kv1))
    (h401 : a1.response.status = 401) :
    callEndpoint BUF now s kv false (a1 :: a2 :: rest) =
      callEndpoint BUF now { s1 with accessToken := none }
        (kvDelete kv1 (getCredentialSpecificCacheKey { s1 with accessToken := none } r1.index))
        true (a2 :: rest) ∧
    kvGet (kvDelete kv1 (getCredentialSpecificCacheKey { s1 with accessToken := none } r1.index))
      (getCredentialSpecificCacheKey { s1 with accessToken := none } r1.index) = none ∧
    (∀ r2 s2 kv2,
      a2.response.status = 401 →
      initAuth { s1 with accessToken := none }
          (kvDelete kv1 (getCredentialSpecificCacheKey { s1 with accessToken := none } r1.index))
          now a2.refresh BUF = Except.ok (r2, s2, kv2) →
      callEndpoint BUF now s kv false (a1 :: a2 :: rest) =
        Except.error ("API call failed with status " ++ toString a2.response.status ++ ": " ++ a2.response.body)) := by
  have hstep : callEndpoint BUF now s kv false (a1 :: a2 :: rest) =
      callEndpoint BUF now { s1 with accessToken := none }
        (kvDelete kv1 (getCredentialSpecificCacheKey { s1 with accessToken := none } r1.index))
        true (a2 :: rest) := by
    simp only [callEndpoint, hinit, h401]
    norm_num
  refine ⟨hstep, kvGet_kvDelete kv1 _, ?_⟩
  intro r2 s2 kv2 h401b hinit2
  rw [hstep]
  simp only [callEndpoint, hinit2, h401b]
  norm_num

/-- Witness for C2: a concrete two-credential pool with a stale cached
token; the first 401 clears the cache and the retried attempt's 401
surfaces as the final error. -/
theorem c2_retry_401_once_witness :
    callEndpoint 30000 1000000 sTwo c2kv false [c2a1, c2a2] =
      Except.error ("API call failed with status " ++ toString c2a2.response.status ++ ": " ++ c2a2.response.body) :=
  (c2_retry_401_once 30000 1000000 sTwo c2kv c2a1 c2a2 [] c2r1 c2s1 c2kv
      (by decide) (by decide)).2.2 c2r2 c2s2 c2kv2 (by decide) (by decide)

/-! ### C3 -/

/-- C3 (amended): when a first (non-retry) upstream attempt returns 429 or
503 with rotation enabled, the failure is recorded through
`handleCredentialFailure` (which updates health and rotates only when more
than one credential is configured), the used credential's cache entry is
cleared, and the call is retried exactly once with whatever credential the
rotation selected — regardless of whether a different index was obtained;
there is no `maxAccountRetryAttempts` parameter, the ceiling is the single
`isRetry` flag.  If the retried attempt again returns 429 or 503, the
error surfaces and no further oracle entry is consulted (`rest` is
universally quantified). -/
theorem c3_rotate_retry_amended (BUF now : Int) (s : AuthState) (kv : KV)
    (a1 a2 : Attempt) (rest : List Attempt)
    (r1 : AuthResultM) (s1 : AuthState) (kv1 : KV) (sf : AuthState)
    (hinit : initAuth s kv now a1.refresh BUF = Except.ok (r1, s1, kv1))
    (hst : a1.response.status = 429 ∨ a1.response.status = 503)
    (hen : s1.rotationConfig.enabled = true)
    (hfail : handleCredentialFailure ("HTTP " ++ toString a1.response.status ++ " error") r1.index now s1 =
      Except.ok sf) :
    callEndpoint BUF now s kv false (a1 :: a2 :: rest) =
      callEndpoint BUF now sf (kvDelete kv1 (getCredentialSpecificCacheKey sf r1.index)) true (a2 :: rest) ∧
    (∀ r2 s2 kv2,
      (a2.response.status = 429 ∨ a2.response.status = 503) →
      initAuth sf (kvDelete kv1 (getCredentialSpecificCacheKey sf r1.index)) now a2.refresh BUF =
        Except.ok (r2, s2, kv2) →
      callEndpoint BUF now s kv false (a1 :: a2 :: rest) =
        Except.error ("API call failed with status " ++ toString a2.response.status ++ ": " ++ a2.response.body)) := by
  have hstep : callEndpoint BUF now s kv false (a1 :: a2 :: rest) =
      callEndpoint BUF now sf (kvDelete kv1 (getCredentialSpecificCacheKey sf r1.index)) true (a2 :: rest) := by
    rcases hst with h | h
    · rw [h] at hfail
      simp only [callEndpoint, hinit, h, hen, hfail]
      norm_num
    · rw [h] at hfail
      simp only [callEndpoint, hinit, h, hen, hfail]
      norm_num
  refine ⟨hstep, ?_⟩
  intro r2 s2 kv2 hstb hinit2
  rw [hstep]
  rcases hstb with h | h
  · simp only [callEndpoint, hinit2, h]
    norm_num
  · simp only [callEndpoint, hinit2, h]
    norm_num

/-- Witness for the amended C3: a single-credential pool with rotation
enabled; the first 429 is retried once with the same credential, and the
second 429 surfaces. -/
theorem c3_rotate_retry_amended_witness :
    callEndpoint 30000 1000000 sOne [] false [c3b1, c3b2] =
      Except.error ("API call failed with status " ++ toString c3b2.response.status ++ ": " ++ c3b2.response.body) :=
  (c3_rotate_retry_amended 30000 1000000 sOne [] c3b1 c3b2 [] c3r1 c3s1 c3kv1 c3s1
      (by decide) (Or.inl (by decide)) (by decide) (by decide)).2 c3r2 c3s2 c3kv2
      (Or.inl (by decide)) (by decide)

/-! ### C4 -/

theorem rotate_rateLimit_all_blocked (s : AuthState)
    (hstrat : s.rotationConfig.strategy = RotationStrategy.rateLimit)
    (hN : 2 ≤ s.credentials.length)
    (hlen : 0 < s.credentialHealth.length)
    (hblocked : ∀ h ∈ s.credentialHealth, h.isBlocked = true) :
    rotateToNextCredential s =
      Except.ok { s with credentialHealth := s.credentialHealth.map resetHealthRecord,
                         currentCredentialIndex := 0 } := by
  unfold rotateToNextCredential
  rw [if_neg (by omega)]
  rw [hstrat]
  have hfil : s.credentialHealth.filter (fun h => !h.isBlocked) = [] := by
    rw [List.filter_eq_nil_iff]
    intro a ha
    simp [hblocked a ha]
  rw [hfil]
  obtain ⟨z, hz⟩ : ∃ z, s.credentialHealth[0]? = some z :=
    ⟨_, List.getElem?_eq_getElem hlen⟩
  simp only [sortHealth, List.getElem?_map, hz, Option.map_some']
  have hlen0 : ¬ s.credentials.length = 0 := by omega
  simp [resetHealthRecord, hlen0]

theorem loop_step_blocked (now : Int) (fuel : Nat) (s : AuthState)
    (cred : OAuth2Credentials) (h : CredentialHealth)
    (hc : s.credentials[s.currentCredentialIndex]? = some cred)
    (hh : s.credentialHealth[s.currentCredentialIndex]? = some h)
    (hb : h.isBlocked = true) :
    getCurrentCredentialsLoop now (fuel + 1) s =
      (match rotateToNextCredential { s with credentialHealth :=
          (s.credentialHealth.set s.currentCredentialIndex { h with lastUsed := now }) } with
       | .ok s2 => getCurrentCredentialsLoop now fuel s2
       | .error e => Except.error e) := by
  conv_lhs => rw [getCurrentCredentialsLoop]
  rw [hc, hh]
  simp [hb]

theorem loop_step_available (now : Int) (fuel : Nat) (s : AuthState)
    (cred : OAuth2Credentials) (h : CredentialHealth)
    (hc : s.credentials[s.currentCredentialIndex]? = some cred)
    (hh : s.credentialHealth[s.currentCredentialIndex]? = some h)
    (hb : h.isBlocked = false) :
    getCurrentCredentialsLoop now (fuel + 1) s =
      Except.ok (cred, { s with credentialHealth :=
        (s.credentialHealth.set s.currentCredentialIndex { h with lastUsed := now }) }) := by
  conv_lhs => rw [getCurrentCredentialsLoop]
  rw [hc, hh]
  simp [hb]

/-- C4 (amended): under the rate-limit strategy, with at least two
credentials and a well-formed in-range cursor, when every health record is
blocked the next selection resets the block and failure state of all
health records and returns the credential at index 0.  (Under round-robin
— the default — the same situation instead raises the
all-credentials-blocked error, per the counterexample.) -/
theorem c4_reset_amended (s : AuthState) (now : Int)
    (hstrat : s.rotationConfig.strategy = RotationStrategy.rateLimit)
    (hN : 2 ≤ s.credentials.length)
    (hlen : s.credentialHealth.length = s.credentials.length)
    (hidx : s.currentCredentialIndex < s.credentials.length)
    (hblocked : ∀ h ∈ s.credentialHealth, h.isBlocked = true) :
    ∃ cred s1, getCurrentCredentials s now = Except.ok (cred, s1) ∧
      s1.currentCredentialIndex = 0 ∧
      s.credentials[0]? = some cred ∧
      ∀ h ∈ s1.credentialHealth, h.isBlocked = false ∧ h.failureCount = 0 := by
  obtain ⟨m, hm⟩ : ∃ m, s.credentials.length = m + 1 + 1 :=
    ⟨s.credentials.length - 2, by omega⟩
  obtain ⟨cred_c, hcred⟩ : ∃ x, s.credentials[s.currentCredentialIndex]? = some x :=
    ⟨_, List.getElem?_eq_getElem hidx⟩
  have hidxh : s.currentCredentialIndex < s.credentialHealth.length := by omega
  obtain ⟨h_c, hhealth⟩ : ∃ x, s.credentialHealth[s.currentCredentialIndex]? = some x :=
    ⟨_, List.getElem?_eq_getElem hidxh⟩
  have hb : h_c.isBlocked = true := hblocked _ (List.getElem?_mem hhealth)
  have hallb1 : ∀ h ∈ (s.credentialHealth.set s.currentCredentialIndex { h_c with lastUsed := now }),
      h.isBlocked = true := by
    intro h hmem
    rcases List.mem_or_eq_of_mem_set hmem with hmem' | rfl
    · exact hblocked _ hmem'
    · exact hb
  have hrot : rotateToNextCredential { s with credentialHealth :=
        (s.credentialHealth.set s.currentCredentialIndex { h_c with lastUsed := now }) } =
      Except.ok { s with
        credentialHealth :=
          ((s.credentialHealth.set s.currentCredentialIndex { h_c with lastUsed := now }).map resetHealthRecord),
        currentCredentialIndex := 0 } :=
    rotate_rateLimit_all_blocked _ (by simpa using hstrat) (by simpa using hN)
      (by simp; omega) hallb1
  obtain ⟨z0, hz0⟩ : ∃ x,
      ((s.credentialHealth.set s.currentCredentialIndex { h_c with lastUsed := now }).map resetHealthRecord)[0]? = some x :=
    ⟨_, List.getElem?_eq_getElem (by simp; omega)⟩
  obtain ⟨w, hw, hzw⟩ : ∃ w,
      (s.credentialHealth.set s.currentCredentialIndex { h_c with lastUsed := now })[0]? = some w ∧
      z0 = resetHealthRecord w := by
    have h2 := hz0
    rw [List.getElem?_map] at h2
    cases hw : (s.credentialHealth.set s.currentCredentialIndex { h_c with lastUsed := now })[0]? with
    | none => rw [hw] at h2; cases h2
    | some w =>
        rw [hw] at h2
        simp only [Option.map_some'] at h2
        injection h2 with h3
        exact ⟨w, rfl, h3.symm⟩
  have hz0blocked : z0.isBlocked = false := by
    rw [hzw]; simp [resetHealthRecord]
  have hz0count : z0.failureCount = 0 := by
    rw [hzw]; simp [resetHealthRecord]
  obtain ⟨cred0, hcred0⟩ : ∃ x, s.credentials[0]? = some x :=
    ⟨_, List.getElem?_eq_getElem (by omega)⟩
  have hloop : getCurrentCredentials s now = Except.ok (cred0,
      { s with
        credentialHealth :=
          (((s.credentialHealth.set s.currentCredentialIndex { h_c with lastUsed := now }).map resetHealthRecord).set 0
            { z0 with lastUsed := now }),
        currentCredentialIndex := 0 }) := by
    unfold getCurrentCredentials
    rw [if_pos (by omega), hm]
    rw [loop_step_blocked now (m + 1) s cred_c h_c hcred hhealth hb]
    rw [hrot]
    exact loop_step_available now m
      { s with
        credentialHealth :=
          ((s.credentialHealth.set s.currentCredentialIndex { h_c with lastUsed := now }).map resetHealthRecord),
        currentCredentialIndex := 0 }
      cred0 z0 hcred0 hz0 hz0blocked
  refine ⟨cred0, _, hloop, rfl, hcred0, ?_⟩
  intro h hmem
  rcases List.mem_or_eq_of_mem_set hmem with hmem' | rfl
  · obtain ⟨y, hy, rfl⟩ := List.mem_map.mp hmem'
    simp [resetHealthRecord]
  · exact ⟨by simpa using hz0blocked, by simpa using hz0count⟩

/-- Witness for the amended C4 at a concrete fully-blocked rate-limit pool. -/
theorem c4_reset_amended_witness :
    ∃ cred s1, getCurrentCredentials sBlockedRL 1000000 = Except.ok (cred, s1) ∧
      s1.currentCredentialIndex = 0 ∧
      sBlockedRL.credentials[0]? = some cred ∧
      ∀ h ∈ s1.credentialHealth, h.isBlocked = false ∧ h.failureCount = 0 :=
  c4_reset_amended sBlockedRL 1000000 (by decide) (by decide) (by decide) (by decide) (by decide)

/-! ### C5, C6, C7 -/

theorem recordFailureUpdate_failureCount (maxR : Nat) (err : String) (now : Int) (h : CredentialHealth) :
    (recordFailureUpdate maxR err now h).failureCount = h.failureCount + 1 := by
  unfold recordFailureUpdate
  by_cases hle : maxR ≤ h.failureCount + 1
  · simp [hle]
  · simp [hle]

theorem recordFailureUpdate_isBlocked (maxR : Nat) (err : String) (now : Int) (h : CredentialHealth) :
    (recordFailureUpdate maxR err now h).isBlocked =
      (h.isBlocked || decide (maxR ≤ h.failureCount + 1)) := by
  unfold recordFailureUpdate
  by_cases hle : maxR ≤ h.failureCount + 1
  · simp [hle]
  · simp [hle]

theorem rotate_roundRobin (s : AuthState)
    (hstrat : s.rotationConfig.strategy = RotationStrategy.roundRobin)
    (hN : 1 < s.credentials.length) :
    rotateToNextCredential s =
      Except.ok { s with currentCredentialIndex :=
        (s.currentCredentialIndex + 1) % s.credentials.length } := by
  unfold rotateToNextCredential
  rw [if_neg (by omega), hstrat]

theorem insertHealth_ne_nil (x : CredentialHealth) (l : List CredentialHealth) :
    insertHealth x l ≠ [] := by
  cases l with
  | nil => simp [insertHealth]
  | cons y ys =>
      simp only [insertHealth]
      split <;> simp

theorem sortHealth_eq_nil {l : List CredentialHealth} (h : sortHealth l = []) : l = [] := by
  cases l with
  | nil => rfl
  | cons x xs =>
      simp only [sortHealth] at h
      exact absurd h (insertHealth_ne_nil x (sortHealth xs))

theorem rotate_rateLimit_healthy (s : AuthState)
    (hstrat : s.rotationConfig.strategy = RotationStrategy.rateLimit)
    (hN : 1 < s.credentials.length)
    (h0 : CredentialHealth) (t : List CredentialHealth)
    (hsort : sortHealth (s.credentialHealth.filter (fun h => !h.isBlocked)) = h0 :: t) :
    rotateToNextCredential s =
      Except.ok { s with currentCredentialIndex := h0.credentialIndex } := by
  unfold rotateToNextCredential
  rw [if_neg (by omega), hstrat, hsort]

/-- C5 (amended): with rotation enabled and more than one credential
configured, `handleCredentialFailure` updates the health record of the
failed index to its `recordFailureUpdate` image — incrementing
`failureCount`, stamping the failure time and reason, and setting
`isBlocked` once the count reaches `maxRetriesPerCredential`; starting
from a fresh record, after `k` recorded failures the count is `k` and the
record is blocked exactly when `k ≥ maxRetriesPerCredential`, so at
`maxRetriesPerCredential - 1` it is not blocked and one more failure
blocks it — except in exactly one case: when the strategy is rate-limit,
the failed credential is the current one, and the recorded failure leaves
every credential blocked, the rotation inside the same call immediately
resets all records, leaving the failed credential's record cleared
(the right disjunct, with that condition pinned).  With a single
credential or rotation disabled nothing is recorded, per the
counterexample. -/
theorem c5_record_failure_amended :
    (∀ (maxR k j : Nat) (err : String) (now : Int), 1 ≤ maxR →
        (iterFailures maxR err now k (mkCredentialHealth j)).failureCount = k ∧
        (iterFailures maxR err now k (mkCredentialHealth j)).isBlocked = decide (maxR ≤ k)) ∧
    (∀ (s : AuthState) (i : Nat) (err : String) (now : Int) (h : CredentialHealth),
        s.rotationConfig.enabled = true →
        2 ≤ s.credentials.length →
        i < s.credentialHealth.length →
        s.credentialHealth[i]? = some h →
        ∃ s1, handleCredentialFailure err i now s = Except.ok s1 ∧
          (s1.credentialHealth[i]? =
              some (recordFailureUpdate s.rotationConfig.maxRetriesPerCredential err now h) ∨
            (s.rotationConfig.strategy = RotationStrategy.rateLimit ∧
             s.currentCredentialIndex = i ∧
             (∀ h' ∈ s.credentialHealth.set i
                (recordFailureUpdate s.rotationConfig.maxRetriesPerCredential err now h),
               h'.isBlocked = true) ∧
             s1.credentialHealth[i]? = some (resetHealthRecord
               (recordFailureUpdate s.rotationConfig.maxRetriesPerCredential err now h))))) := by
  constructor
  · intro maxR k j err now hmax
    induction k with
    | zero =>
        constructor
        · rfl
        · have : ¬ maxR ≤ 0 := by omega
          simp [iterFailures, mkCredentialHealth, this]
    | succ k ih =>
        obtain ⟨ih1, ih2⟩ := ih
        constructor
        · rw [iterFailures, recordFailureUpdate_failureCount, ih1]
        · rw [iterFailures, recordFailureUpdate_isBlocked, ih1, ih2]
          by_cases hk : maxR ≤ k
          · have hk1 : maxR ≤ k + 1 := by omega
            simp [hk, hk1]
          · by_cases hk1 : maxR ≤ k + 1
            · simp [hk, hk1]
            · simp [hk, hk1]
  · intro s i err now h hen hN hi hh
    have hcond : ¬ (s.rotationConfig.enabled = false ∨ s.credentials.length ≤ 1) := by
      rw [hen]
      simp
      omega
    by_cases hci : s.currentCredentialIndex = i
    · cases hstrat : s.rotationConfig.strategy with
      | roundRobin =>
          refine ⟨{ s with
              credentialHealth := (s.credentialHealth.set i
                (recordFailureUpdate s.rotationConfig.maxRetriesPerCredential err now h)),
              currentCredentialIndex := (s.currentCredentialIndex + 1) % s.credentials.length },
            ?_, Or.inl ?_⟩
          · simp only [handleCredentialFailure, hh]
            rw [if_neg hcond]
            rw [if_pos hci]
            exact rotate_roundRobin _ (by simpa using hstrat) (by simpa using hN)
          · exact List.getElem?_set_self (by simpa using hi)
      | rateLimit =>
          cases hsort : sortHealth ((s.credentialHealth.set i
              (recordFailureUpdate s.rotationConfig.maxRetriesPerCredential err now h)).filter
                (fun h' => !h'.isBlocked)) with
          | cons h0 t =>
              refine ⟨{ s with
                  credentialHealth := (s.credentialHealth.set i
                    (recordFailureUpdate s.rotationConfig.maxRetriesPerCredential err now h)),
                  currentCredentialIndex := h0.credentialIndex }, ?_, Or.inl ?_⟩
              · simp only [handleCredentialFailure, hh]
                rw [if_neg hcond]
                rw [if_pos hci]
                exact rotate_rateLimit_healthy _ (by simpa using hstrat) (by simpa using hN)
                  h0 t (by simpa using hsort)
              · exact List.getElem?_set_self (by simpa using hi)
          | nil =>
              have hallb : ∀ h' ∈ (s.credentialHealth.set i
                  (recordFailureUpdate s.rotationConfig.maxRetriesPerCredential err now h)),
                  h'.isBlocked = true := by
                have hfil := sortHealth_eq_nil hsort
                rw [List.filter_eq_nil_iff] at hfil
                intro h' hmem
                have := hfil h' hmem
                simpa using this
              refine ⟨{ s with
                  credentialHealth := ((s.credentialHealth.set i
                    (recordFailureUpdate s.rotationConfig.maxRetriesPerCredential err now h)).map
                      resetHealthRecord),
                  currentCredentialIndex := 0 }, ?_, Or.inr ⟨rfl, hci, hallb, ?_⟩⟩
              · simp only [handleCredentialFailure, hh]
                rw [if_neg hcond]
                rw [if_pos hci]
                exact rotate_rateLimit_all_blocked _ (by simpa using hstrat)
                  (by simpa using hN) (by simp; omega) (by simpa using hallb)
              · rw [List.getElem?_map, List.getElem?_set_self (by simpa using hi)]
                rfl
    · refine ⟨{ s with
          credentialHealth := (s.credentialHealth.set i
            (recordFailureUpdate s.rotationConfig.maxRetriesPerCredential err now h)) },
        ?_, Or.inl ?_⟩
      · simp only [handleCredentialFailure, hh]
        rw [if_neg hcond]
        rw [if_neg hci]
      · exact List.getElem?_set_self (by simpa using hi)

/-- Witness for the amended C5: two failures on a fresh record with a
ceiling of 3 leave it unblocked at count 2, and a concrete in-range update
on the two-credential round-robin pool lands in the left disjunct, storing
the `recordFailureUpdate` image. -/
theorem c5_record_failure_amended_witness :
    ((iterFailures 3 "e" 7 2 (mkCredentialHealth 0)).failureCount = 2 ∧
     (iterFailures 3 "e" 7 2 (mkCredentialHealth 0)).isBlocked = decide (3 ≤ 2)) ∧
    (∃ s1, handleCredentialFailure "e" 1 7 sTwo = Except.ok s1 ∧
      (s1.credentialHealth[1]? =
          some (recordFailureUpdate sTwo.rotationConfig.maxRetriesPerCredential "e" 7 (mkCredentialHealth 1)) ∨
        (sTwo.rotationConfig.strategy = RotationStrategy.rateLimit ∧
         sTwo.currentCredentialIndex = 1 ∧
         (∀ h' ∈ sTwo.credentialHealth.set 1
            (recordFailureUpdate sTwo.rotationConfig.maxRetriesPerCredential "e" 7 (mkCredentialHealth 1)),
           h'.isBlocked = true) ∧
         s1.credentialHealth[1]? = some (resetHealthRecord
           (recordFailureUpdate sTwo.rotationConfig.maxRetriesPerCredential "e" 7 (mkCredentialHealth 1)))))) :=
  ⟨c5_record_failure_amended.1 3 2 0 "e" 7 (by decide),
   c5_record_failure_amended.2 sTwo 1 "e" 7 (mkCredentialHealth 1) (by decide) (by decide)
     (by decide) (by decide)⟩

/-- C6 (amended): with rotation enabled and the index within the tracked
range, `handleCredentialSuccess` replaces the health record by
`recordSuccessUpdate` — incrementing `successCount`, resetting
`failureCount` to 0 and clearing `isBlocked` and the failure metadata (in
particular a blocked record is always unblocked) — and applying it twice
leaves the same blocked/failure state as applying it once.  (With rotation
disabled it leaves the state untouched, per the counterexample.) -/
theorem c6_record_success_amended (s : AuthState) (i : Nat)
    (hen : s.rotationConfig.enabled = true)
    (hi : i < s.credentialHealth.length) :
    ∃ s1, handleCredentialSuccess i s = Except.ok s1 ∧
      s1.credentialHealth[i]? = (s.credentialHealth[i]?).map recordSuccessUpdate ∧
      ∃ s2, handleCredentialSuccess i s1 = Except.ok s2 ∧
        (s2.credentialHealth[i]?).map
            (fun h => (h.isBlocked, h.failureCount, h.lastFailure, h.lastFailureReason)) =
          (s1.credentialHealth[i]?).map
            (fun h => (h.isBlocked, h.failureCount, h.lastFailure, h.lastFailureReason)) := by
  obtain ⟨h, hh⟩ : ∃ x, s.credentialHealth[i]? = some x := ⟨_, List.getElem?_eq_getElem hi⟩
  have hget1 : ((s.credentialHealth.set i (recordSuccessUpdate h)))[i]? =
      some (recordSuccessUpdate h) := List.getElem?_set_self (by simpa using hi)
  have hne : ¬ s.rotationConfig.enabled = false := by simp [hen]
  refine ⟨{ s with credentialHealth := (s.credentialHealth.set i (recordSuccessUpdate h)) }, ?_, ?_, ?_⟩
  · simp only [handleCredentialSuccess, hh]
    rw [if_neg hne]
  · rw [hh, Option.map_some']
    exact hget1
  · refine ⟨{ s with credentialHealth := ((s.credentialHealth.set i (recordSuccessUpdate h)).set i
        (recordSuccessUpdate (recordSuccessUpdate h))) }, ?_, ?_⟩
    · simp only [handleCredentialSuccess, hget1]
      rw [if_neg hne]
    · have hget2 : (((s.credentialHealth.set i (recordSuccessUpdate h)).set i
          (recordSuccessUpdate (recordSuccessUpdate h))))[i]? =
          some (recordSuccessUpdate (recordSuccessUpdate h)) :=
        List.getElem?_set_self (by simpa using hi)
      rw [hget2, hget1]
      simp [recordSuccessUpdate]

/-- Witness for the amended C6 at index 0 of the two-credential pool. -/
theorem c6_record_success_amended_witness :
    ∃ s1, handleCredentialSuccess 0 sTwo = Except.ok s1 ∧
      s1.credentialHealth[0]? = (sTwo.credentialHealth[0]?).map recordSuccessUpdate ∧
      ∃ s2, handleCredentialSuccess 0 s1 = Except.ok s2 ∧
        (s2.credentialHealth[0]?).map
            (fun h => (h.isBlocked, h.failureCount, h.lastFailure, h.lastFailureReason)) =
          (s1.credentialHealth[0]?).map
            (fun h => (h.isBlocked, h.failureCount, h.lastFailure, h.lastFailureReason)) :=
  c6_record_success_amended sTwo 0 (by decide) (by decide)

/-- C7 (amended): under round-robin with more than one credential and an
in-range cursor, each `rotateToNextCredential` step sets the cursor to
`(current + 1) mod N` unconditionally, changes nothing but the cursor (in
particular it never resets health records), and the new index never equals
the previous one.  `getCurrentCredentials` itself does not advance the
cursor when the current credential is available, so two consecutive
selections without an intervening rotation return the same index, per the
counterexample. -/
theorem c7_round_robin_amended (s : AuthState)
    (hstrat : s.rotationConfig.strategy = RotationStrategy.roundRobin)
    (hN : 2 ≤ s.credentials.length)
    (hidx : s.currentCredentialIndex < s.credentials.length) :
    rotateToNextCredential s =
      Except.ok { s with currentCredentialIndex :=
        (s.currentCredentialIndex + 1) % s.credentials.length } ∧
    (s.currentCredentialIndex + 1) % s.credentials.length ≠ s.currentCredentialIndex := by
  refine ⟨rotate_roundRobin s hstrat (by omega), ?_⟩
  rcases Nat.lt_or_ge (s.currentCredentialIndex + 1) s.credentials.length with hlt | hge
  · rw [Nat.mod_eq_of_lt hlt]
    omega
  · have h1 : s.currentCredentialIndex + 1 = s.credentials.length := by omega
    rw [h1, Nat.mod_self]
    omega

/-- Witness for the amended C7 at the two-credential round-robin pool. -/
theorem c7_round_robin_amended_witness :
    rotateToNextCredential sTwo =
      Except.ok { sTwo with currentCredentialIndex :=
        (sTwo.currentCredentialIndex + 1) % sTwo.credentials.length } ∧
    (sTwo.currentCredentialIndex + 1) % sTwo.credentials.length ≠ sTwo.currentCredentialIndex :=
  c7_round_robin_amended sTwo (by decide) (by decide) (by decide)

/-! ### C8 -/

/-- C8 (amended): invalid or missing fields abort loading and an invalid
entry is never silently dropped — a successful load of the indexed or
array shape returns exactly one credential per configured entry
(conjuncts 1 and 3) — but the error surfaced by `loadCredentials` is the
generic `Invalid <source-variable> format` message naming only the
offending source variable, with the validator's field list discarded by
the `catch` (conjunct 2, for any validator error).  The aggregation the
claim describes exists only inside `validateOAuth2Credentials`: its first
stage rejects with one message listing every missing or wrong-typed field
(conjunct 4), while its empty-string stage aborts at the first offending
field (conjunct 5). -/
theorem c8_load_amended :
    (∀ (i : Nat) (vars : List CredVar) (creds : List OAuth2Credentials),
        loadIndividual i vars = Except.ok creds → creds.length = vars.length) ∧
    (∀ (i : Nat) (c : Option RawCred) (rest : List CredVar) (e : String),
        validateOAuth2Credentials c ("GCP_SERVICE_ACCOUNTS_" ++ toString i) = Except.error e →
        loadIndividual i (CredVar.parsed c :: rest) =
          Except.error ("Invalid GCP_SERVICE_ACCOUNTS_" ++ toString i ++
            " format. Must be a JSON object with OAuth2 credentials.")) ∧
    (∀ (i : Nat) (entries : List (Option RawCred)) (creds : List OAuth2Credentials),
        validateAll i entries = Except.ok creds → creds.length = entries.length) ∧
    (∀ (c : RawCred) (src : String), missingNames c ≠ [] →
        validateOAuth2Credentials (some c) src =
          Except.error (src ++ " is missing required fields: " ++
            String.intercalate ", " (missingNames c) ++
            ". OAuth2 credentials must include: access_token, refresh_token, scope, token_type, id_token, expiry_date")) ∧
    (∀ (c : RawCred) (src a : String),
        c.access_token = JField.str a → jsTrim a = "" → missingNames c = [] →
        validateOAuth2Credentials (some c) src =
          Except.error (src ++ "." ++ "access_token" ++ " must be a non-empty string")) := by
  refine ⟨?_, ?_, ?_, ?_, ?_⟩
  · intro i vars
    induction vars generalizing i with
    | nil =>
        intro creds hok
        simp only [loadIndividual] at hok
        injection hok with h1
        rw [← h1]
        rfl
    | cons v rest ih =>
        intro creds hok
        cases v with
        | parseError =>
            simp only [loadIndividual] at hok
            exact Except.noConfusion hok
        | parsed c =>
            simp only [loadIndividual] at hok
            cases hv : validateOAuth2Credentials c ("GCP_SERVICE_ACCOUNTS_" ++ toString i) with
            | error e => rw [hv] at hok; exact Except.noConfusion hok
            | ok cred =>
                rw [hv] at hok
                cases hrec : loadIndividual (i + 1) rest with
                | error e => rw [hrec] at hok; exact Except.noConfusion hok
                | ok creds2 =>
                    rw [hrec] at hok
                    injection hok with h1
                    rw [← h1]
                    simp [ih (i + 1) creds2 hrec]
  · intro i c rest e hval
    simp only [loadIndividual, hval]
  · intro i entries
    induction entries generalizing i with
    | nil =>
        intro creds hok
        simp only [validateAll] at hok
        injection hok with h1
        rw [← h1]
        rfl
    | cons c rest ih =>
        intro creds hok
        simp only [validateAll] at hok
        cases hv : validateOAuth2Credentials c ("GCP_SERVICE_ACCOUNTS[" ++ toString i ++ "]") with
        | error e => rw [hv] at hok; exact Except.noConfusion hok
        | ok cred =>
            rw [hv] at hok
            cases hrec : validateAll (i + 1) rest with
            | error e => rw [hrec] at hok; exact Except.noConfusion hok
            | ok creds2 =>
                rw [hrec] at hok
                injection hok with h1
                rw [← h1]
                simp [ih (i + 1) creds2 hrec]
  · intro c src hne
    simp only [validateOAuth2Credentials]
    rw [if_neg hne]
  · intro c src a hA htrim hmiss
    simp only [validateOAuth2Credentials]
    rw [if_pos hmiss, hA]
    simp [checkNonEmptyString, htrim]

set_option maxRecDepth 8192 in
/-- Witness for the amended C8: the invalid entry of the counterexample
makes the inner validator fail with the aggregated two-field message, yet
`loadIndividual` surfaces only the generic source-variable message; the
aggregated message itself is exhibited on the same entry, and the
first-field-only behaviour on an entry with two empty string fields. -/
theorem c8_load_amended_witness :
    loadIndividual 1 [CredVar.parsed (some c8miss)] =
      Except.error ("Invalid GCP_SERVICE_ACCOUNTS_" ++ toString 1 ++
        " format. Must be a JSON object with OAuth2 credentials.") ∧
    validateOAuth2Credentials (some c8miss) "SRC" =
      Except.error ("SRC" ++ " is missing required fields: " ++
        String.intercalate ", " (missingNames c8miss) ++
        ". OAuth2 credentials must include: access_token, refresh_token, scope, token_type, id_token, expiry_date") ∧
    validateOAuth2Credentials (some c8bothEmpty) "SRC" =
      Except.error ("SRC" ++ "." ++ "access_token" ++ " must be a non-empty string") :=
  ⟨c8_load_amended.2.1 1 (some c8miss) []
      "GCP_SERVICE_ACCOUNTS_1 is missing required fields: refresh_token, expiry_date. OAuth2 credentials must include: access_token, refresh_token, scope, token_type, id_token, expiry_date"
      (by decide),
   c8_load_amended.2.2.2.1 c8miss "SRC" (by decide),
   c8_load_amended.2.2.2.2 c8bothEmpty "SRC" "" (by decide) (by decide) (by decide)⟩

end GeminiAuth
